import Mathlib

/-!
Verification of the interactive grid-to-tone canvas engine of this
repository.  The page variants share one data model: pools of decaying
shapes and particles, a per-cell highlight table, an equal-tempered
scale of frequencies, and an interaction handler that maps pointer
coordinates to grid cells and dispatches tones, drums, highlights and
spawned visuals.  Machine floats are modelled as exact rationals
(coordinates, volumes, opacities) and reals (frequencies, which involve
2 ^ (i/12)); timestamps (Date.now(), milliseconds) are integers.
-/

/-- Kind of a spawned shape, the `type` field of the Shape interface. -/
inductive ShapeKind where
  | circle
  | square
  | triangle
deriving DecidableEq

/-- The COLORS palette. -/
def COLORS : List String := ["#FF1461", "#18FF92", "#5A87FF", "#FBF38C"]

/-- The SHAPES palette. -/
def SHAPES : List ShapeKind := [ShapeKind.circle, ShapeKind.square, ShapeKind.triangle]

/-- A trail shape: position, size, color, kind, opacity, velocity, life. -/
structure Shape where
  x : ℚ
  y : ℚ
  size : ℚ
  color : String
  type : ShapeKind
  alpha : ℚ
  vx : ℚ
  vy : ℚ
  life : ℚ
deriving DecidableEq

/-- A glow particle: position, size, velocity, opacity, life, rotation angle. -/
structure Particle where
  x : ℚ
  y : ℚ
  size : ℚ
  vx : ℚ
  vy : ℚ
  alpha : ℚ
  life : ℚ
  angle : ℚ
deriving DecidableEq

/-- A per-cell highlight record: opacity, scale, trigger timestamp (ms). -/
structure CellHighlight where
  alpha : ℚ
  scale : ℚ
  time : ℤ
deriving DecidableEq

/-- The canvas pixel dimensions read by the handlers. -/
structure Canvas where
  width : ℚ
  height : ℚ
deriving DecidableEq

/-- The random draws consumed by one createShape call, each a
Math.random() value in [0, 1). -/
structure ShapeRand where
  size01 : ℚ
  color01 : ℚ
  type01 : ℚ
  vx01 : ℚ
  vy01 : ℚ
deriving DecidableEq

/-- The random draws consumed by one createParticle call. -/
structure ParticleRand where
  size01 : ℚ
  vx01 : ℚ
  vy01 : ℚ
  angle01 : ℚ
deriving DecidableEq

/-- createShape: randomized size, palette color and kind, unit opacity
and life, velocity in (-1, 1) per axis. -/
def createShape (x y : ℚ) (r : ShapeRand) : Shape :=
  { x := x
    y := y
    size := r.size01 * 20 + 5
    color := COLORS.getD (Int.toNat ⌊r.color01 * (COLORS.length : ℚ)⌋) ""
    type := SHAPES.getD (Int.toNat ⌊r.type01 * (SHAPES.length : ℚ)⌋) ShapeKind.circle
    alpha := 1
    vx := (r.vx01 - 1/2) * 2
    vy := (r.vy01 - 1/2) * 2
    life := 1 }

/-- createParticle: smaller size, strong lateral drift, slight vertical
drift, random rotation angle. -/
def createParticle (x y : ℚ) (r : ParticleRand) : Particle :=
  { x := x
    y := y
    size := r.size01 * 3 + 5
    vx := (r.vx01 - 1/2) * 4
    vy := (r.vy01 - 1/2) * (1/2)
    alpha := 1
    life := 1
    angle := r.angle01 * 360 }

/-- The random draws consumed by one interaction: three shapes and two
particles are spawned. -/
structure InteractRand where
  shapes : Fin 3 → ShapeRand
  particles : Fin 2 → ParticleRand

/-- A fixed all-zero draw, usable as a concrete interaction randomness. -/
def rand0 : InteractRand :=
  ⟨fun _ => ⟨0, 0, 0, 0, 0⟩, fun _ => ⟨0, 0, 0, 0⟩⟩

/-- The sound dispatched by an interaction: a note tone at a frequency
taken from the scale, or a drum hit; both carry the computed volume. -/
inductive SoundEvent (α : Type) where
  | note (frequency : α) (volume : ℚ)
  | drum (volume : ℚ)
deriving DecidableEq

/-- The mutable interaction state: shape pool, particle pool, the
timestamp of the last fired sound, and the sparse highlight table
indexed by flattened cell index. -/
structure InteractionState where
  shapes : List Shape
  particles : List Particle
  lastSoundTime : ℤ
  highlights : ℤ → Option CellHighlight

/-- The initial refs: empty pools, lastSoundTime 0, empty highlights. -/
def initialState : InteractionState :=
  ⟨[], [], 0, fun _ => none⟩

/-- The base pitch C3 in Hz. -/
noncomputable def baseFreq : ℝ := 130.81

/-- The frequency mapped to note index i: baseFreq * 2 ^ (i / 12). -/
noncomputable def noteFrequency (i : ℕ) : ℝ :=
  baseFreq * (2 : ℝ) ^ ((i : ℝ) / 12)

/-- generateScale: the equal-tempered chromatic scale of the requested
length, element i carrying noteFrequency i. -/
noncomputable def generateScale (totalCells : ℕ) : List ℝ :=
  (List.range totalCells).map noteFrequency

/-- The highlight decay duration in milliseconds. -/
def highlightDuration : ℚ := 500

/-- Volume from vertical position: max(0.1, 1 - 0.9 * y / height). -/
def volumeAt (y height : ℚ) : ℚ :=
  max (1/10) (1 - y / height * (9/10))

/-- The per-highlight frame update of drawCellHighlights: an inert
highlight (opacity at most 0) is skipped; past the duration the opacity
is reset to 0; otherwise opacity = 1 - progress and
scale = 1 + 0.2 * (1 - progress) with progress = elapsed / duration. -/
def updateHighlight (now : ℤ) (ch : CellHighlight) : CellHighlight :=
  if ch.alpha ≤ 0 then ch
  else
    let elapsed : ℚ := ((now - ch.time : ℤ) : ℚ)
    let progress : ℚ := elapsed / highlightDuration
    if progress > 1 then { ch with alpha := 0 }
    else { ch with alpha := 1 - progress, scale := 1 + (1/5) * (1 - progress) }

/-- One animate-frame step of a shape: life drops by 0.01, opacity is
the square of the new life, size grows, position advances. -/
def stepShape (sh : Shape) : Shape :=
  { sh with
    life := sh.life - 1/100
    alpha := (sh.life - 1/100) ^ 2
    size := sh.size + 1/5
    x := sh.x + sh.vx
    y := sh.y + sh.vy }

/-- One animate-frame step of a particle: life drops by 0.02, opacity is
the square of the new life, size grows, position advances, angle turns. -/
def stepParticle (p : Particle) : Particle :=
  { p with
    life := p.life - 1/50
    alpha := (p.life - 1/50) ^ 2
    size := p.size + 1/20
    x := p.x + p.vx
    y := p.y + p.vy
    angle := p.angle + 2 }

/-- The shape pool cap of the animate loop. -/
def MAX_SHAPES : ℕ := 100

/-- The particle pool cap of the animate loop. -/
def MAX_PARTICLES : ℕ := 100

/-- slice(-maxN): when the pool exceeds the cap, keep only the newest
maxN entries (the list suffix), discarding the oldest. -/
def trimPool {β : Type} (l : List β) (maxN : ℕ) : List β :=
  if l.length > maxN then l.drop (l.length - maxN) else l

/-- The pool part of one animate frame: advance every entity, retire
those whose life is no longer positive, then trim both pools. -/
def animatePools (shapes : List Shape) (particles : List Particle) :
    List Shape × List Particle :=
  let shapes1 := (shapes.map stepShape).filter (fun sh => decide (0 < sh.life))
  let particles1 := (particles.map stepParticle).filter (fun p => decide (0 < p.life))
  (trimPool shapes1 MAX_SHAPES, trimPool particles1 MAX_PARTICLES)

namespace V716

/-- Fixed row count of the 7-row 16-column variant. -/
def rows : ℕ := 7

/-- Fixed column count of the 7-row 16-column variant. -/
def columns : ℕ := 16

/-- Note-area row count. -/
def noteRows : ℕ := 5

/-- Note-area column count. -/
def noteCols : ℕ := 14

/-- Total note cells: 5 * 14 = 70. -/
def totalNotes : ℕ := noteRows * noteCols

/-- cellSize = canvas.height / rows, recomputed on every interaction. -/
def cellSizeOf (canvas : Canvas) : ℚ := canvas.height / (rows : ℚ)

/-- cellX = floor(x / cellSize). -/
def cellXOf (x : ℚ) (canvas : Canvas) : ℤ := ⌊x / cellSizeOf canvas⌋

/-- cellY = floor(y / cellSize). -/
def cellYOf (y : ℚ) (canvas : Canvas) : ℤ := ⌊y / cellSizeOf canvas⌋

/-- handleInteractionLogic of the 7-row 16-column variant: map the
coordinates to a cell, push three shapes and two particles, then: top
and bottom rows are silent; the leftmost and rightmost columns fire a
rate-limited drum; the interior note region rows 1..5, columns 1..14
fires a rate-limited note from the scale and records a highlight.  The
scale is the value of scaleRef.current, passed in as a parameter; the
frequency type is kept abstract so the handler stays executable. -/
def handleInteractionLogic {α : Type} [Inhabited α] (scale : List α)
    (x y : ℚ) (canvas : Canvas) (currentTime : ℤ) (rnd : InteractRand)
    (s : InteractionState) : InteractionState × Option (SoundEvent α) :=
  let cellX : ℤ := cellXOf x canvas
  let cellY : ℤ := cellYOf y canvas
  let s1 : InteractionState :=
    { s with
      shapes := s.shapes ++ List.ofFn (fun i : Fin 3 => createShape x y (rnd.shapes i))
      particles := s.particles ++ List.ofFn (fun i : Fin 2 => createParticle x y (rnd.particles i)) }
  let volume := volumeAt y canvas.height
  if cellY = 0 ∨ cellY = (rows : ℤ) - 1 then (s1, none)
  else if cellX = 0 ∨ cellX = (columns : ℤ) - 1 then
    if currentTime - s1.lastSoundTime > 100 then
      ({ s1 with lastSoundTime := currentTime }, some (SoundEvent.drum volume))
    else (s1, none)
  else if 1 ≤ cellX ∧ cellX ≤ 14 ∧ 1 ≤ cellY ∧ cellY ≤ 5 then
    let noteRow := cellY - 1
    let noteCol := cellX - 1
    let noteIndex := noteRow * (noteCols : ℤ) + noteCol
    let frequency := scale.getD (Int.toNat noteIndex) default
    let cellIndex := cellY * (columns : ℤ) + cellX
    let s2 : InteractionState :=
      { s1 with
        highlights := fun j =>
          if j = cellIndex then some ⟨1, 6/5, currentTime⟩ else s1.highlights j }
    if currentTime - s1.lastSoundTime > 100 then
      ({ s2 with lastSoundTime := currentTime }, some (SoundEvent.note frequency volume))
    else (s2, none)
  else (s1, none)

end V716

namespace Page5

/-- Fixed row count of the dynamic-columns variant (page copy 5). -/
def rows : ℕ := 8

/-- cellSize = canvas.height / rows. -/
def cellSizeOf (canvas : Canvas) : ℚ := canvas.height / (rows : ℚ)

/-- columns = floor(canvas.width / cellSize), recomputed per interaction. -/
def columnsOf (canvas : Canvas) : ℤ := ⌊canvas.width / cellSizeOf canvas⌋

/-- cellX = floor(x / cellSize). -/
def cellXOf (x : ℚ) (canvas : Canvas) : ℤ := ⌊x / cellSizeOf canvas⌋

/-- cellY = floor(y / cellSize). -/
def cellYOf (y : ℚ) (canvas : Canvas) : ℤ := ⌊y / cellSizeOf canvas⌋

/-- handleInteractionLogic of the dynamic-columns variant: recompute the
layout and the scale from the canvas, map the coordinates to a cell,
push three shapes and two particles, and if the cell lies inside the
grid and its flattened index lies inside the scale, fire a rate-limited
note and record a highlight. -/
noncomputable def handleInteractionLogic (x y : ℚ) (canvas : Canvas)
    (currentTime : ℤ) (rnd : InteractRand) (s : InteractionState) :
    InteractionState × Option (SoundEvent ℝ) :=
  let columns := columnsOf canvas
  let totalCells : ℤ := (rows : ℤ) * columns
  let scale := generateScale (Int.toNat totalCells)
  let cellX : ℤ := cellXOf x canvas
  let cellY : ℤ := cellYOf y canvas
  let s1 : InteractionState :=
    { s with
      shapes := s.shapes ++ List.ofFn (fun i : Fin 3 => createShape x y (rnd.shapes i))
      particles := s.particles ++ List.ofFn (fun i : Fin 2 => createParticle x y (rnd.particles i)) }
  if 0 ≤ cellX ∧ cellX < columns ∧ 0 ≤ cellY ∧ cellY < (rows : ℤ) then
    let cellIndex := cellY * columns + cellX
    if cellIndex < (scale.length : ℤ) then
      let frequency := scale.getD (Int.toNat cellIndex) default
      let volume := volumeAt y canvas.height
      let s2 : InteractionState :=
        { s1 with
          highlights := fun j =>
            if j = cellIndex then some ⟨1, 6/5, currentTime⟩ else s1.highlights j }
      if currentTime - s1.lastSoundTime > 100 then
        ({ s2 with lastSoundTime := currentTime }, some (SoundEvent.note frequency volume))
      else (s2, none)
    else (s1, none)
  else (s1, none)

end Page5

namespace Orient

/-- Fixed row count of the orientation-aware variant. -/
def rows : ℕ := 7

/-- The layout parameters chosen from the orientation. -/
structure LayoutParams where
  currentColumns : ℕ
  noteCols : ℕ
  noteRows : ℕ
  totalNotes : ℕ
deriving DecidableEq

/-- getLayoutParams: 9 columns in portrait, 16 in landscape; two side
columns are drum columns, five rows carry notes. -/
def getLayoutParams (isPortrait : Bool) : LayoutParams :=
  let currentColumns : ℕ := if isPortrait then 9 else 16
  let noteCols := currentColumns - 2
  let noteRows : ℕ := 5
  ⟨currentColumns, noteCols, noteRows, noteRows * noteCols⟩

/-- The layout/scale state held by the module refs: the columns global,
the note-area refs and the generated scale. -/
structure LayoutState where
  columns : ℕ
  noteCols : ℕ
  noteRows : ℕ
  totalNotes : ℕ
  scale : List ℝ

/-- The initial refs before the first updateLayoutAndScale: columns 16,
zero note counts, empty scale. -/
def initLayout : LayoutState := ⟨16, 0, 0, 0, []⟩

/-- updateLayoutAndScale: recompute the layout parameters from the
orientation and regenerate the scale to the new note-cell count. -/
noncomputable def updateLayoutAndScale (isPortrait : Bool) : LayoutState :=
  let p := getLayoutParams isPortrait
  ⟨p.currentColumns, p.noteCols, p.noteRows, p.totalNotes, generateScale p.totalNotes⟩

/-- cellSize = canvas.height / rows. -/
def cellSizeOf (canvas : Canvas) : ℚ := canvas.height / (rows : ℚ)

/-- cellX = floor(x / cellSize). -/
def cellXOf (x : ℚ) (canvas : Canvas) : ℤ := ⌊x / cellSizeOf canvas⌋

/-- cellY = floor(y / cellSize). -/
def cellYOf (y : ℚ) (canvas : Canvas) : ℤ := ⌊y / cellSizeOf canvas⌋

/-- handleInteractionLogic of the orientation-aware variant, reading the
current columns global and the current scale: silent top and bottom
rows, drum side columns, and a note region of columns - 2 interior
columns whose note index is re-validated against the scale length. -/
def handleInteractionLogic {α : Type} [Inhabited α] (columns : ℕ) (scale : List α)
    (x y : ℚ) (canvas : Canvas) (currentTime : ℤ) (rnd : InteractRand)
    (s : InteractionState) : InteractionState × Option (SoundEvent α) :=
  let cellX : ℤ := cellXOf x canvas
  let cellY : ℤ := cellYOf y canvas
  let s1 : InteractionState :=
    { s with
      shapes := s.shapes ++ List.ofFn (fun i : Fin 3 => createShape x y (rnd.shapes i))
      particles := s.particles ++ List.ofFn (fun i : Fin 2 => createParticle x y (rnd.particles i)) }
  let volume := volumeAt y canvas.height
  if cellY = 0 ∨ cellY = (rows : ℤ) - 1 then (s1, none)
  else if cellX = 0 ∨ cellX = (columns : ℤ) - 1 then
    if currentTime - s1.lastSoundTime > 100 then
      ({ s1 with lastSoundTime := currentTime }, some (SoundEvent.drum volume))
    else (s1, none)
  else
    let noteColsDynamic : ℤ := (columns : ℤ) - 2
    if 1 ≤ cellX ∧ cellX ≤ noteColsDynamic ∧ 1 ≤ cellY ∧ cellY ≤ 5 then
      let noteRow := cellY - 1
      let noteCol := cellX - 1
      let noteIndex := noteRow * noteColsDynamic + noteCol
      if noteIndex < (scale.length : ℤ) then
        let frequency := scale.getD (Int.toNat noteIndex) default
        let cellIndex := cellY * (columns : ℤ) + cellX
        let s2 : InteractionState :=
          { s1 with
            highlights := fun j =>
              if j = cellIndex then some ⟨1, 6/5, currentTime⟩ else s1.highlights j }
        if currentTime - s1.lastSoundTime > 100 then
          ({ s2 with lastSoundTime := currentTime }, some (SoundEvent.note frequency volume))
        else (s2, none)
      else (s1, none)
    else (s1, none)

end Orient

namespace Audio

/-- The audio environment the players probe: whether the page is in a
secure context and whether an AudioContext class is available. -/
structure AudioEnv where
  isSecureContext : Bool
  audioSupported : Bool
deriving DecidableEq

/-- What a player call does: synthesize a triangle note, synthesize the
fixed low square drum hit, or log a warning and do nothing. -/
inductive AudioAction (α : Type) where
  | playedNote (frequency : α) (volume : ℚ)
  | playedDrum (volume : ℚ)
  | warnedSkip
deriving DecidableEq

/-- playSound: warn and no-op outside a secure context, warn and no-op
when AudioContext is unsupported, otherwise synthesize the note; its
body is wrapped in try/catch, so it never throws upward. -/
def playSound {α : Type} (env : AudioEnv) (frequency : α) (volume : ℚ) :
    AudioAction α :=
  if env.isSecureContext = false then AudioAction.warnedSkip
  else if env.audioSupported = false then AudioAction.warnedSkip
  else AudioAction.playedNote frequency volume

/-- playDrum: warn and no-op only when AudioContext is unsupported;
there is no secure-context guard and no try/catch around its body. -/
def playDrum {α : Type} (env : AudioEnv) (volume : ℚ) : AudioAction α :=
  if env.audioSupported = false then AudioAction.warnedSkip
  else AudioAction.playedDrum volume

end Audio

/-- A run of spawn events: n successive interactions at a fixed point of
the note region with no intervening animate frame. -/
def spawnIter (n : ℕ) (s : InteractionState) : InteractionState :=
  match n with
  | 0 => s
  | Nat.succ k =>
      (V716.handleInteractionLogic (α := ℕ) (List.range 70) 150 150 ⟨1600, 700⟩ 0
        rand0 (spawnIter k s)).1

/-- A state in which a sound has just fired at time 1000: empty pools,
lastSoundTime 1000, empty highlight table. -/
def recentSoundState : InteractionState := ⟨[], [], 1000, fun _ => none⟩

theorem V716.handle_shapes {α : Type} [Inhabited α] (scale : List α)
    (x y : ℚ) (c : Canvas) (t : ℤ) (rnd : InteractRand) (s : InteractionState) :
    (V716.handleInteractionLogic scale x y c t rnd s).1.shapes =
      s.shapes ++ List.ofFn (fun i : Fin 3 => createShape x y (rnd.shapes i)) := by
  simp only [V716.handleInteractionLogic]
  repeat' split
  all_goals rfl

theorem V716.handle_particles {α : Type} [Inhabited α] (scale : List α)
    (x y : ℚ) (c : Canvas) (t : ℤ) (rnd : InteractRand) (s : InteractionState) :
    (V716.handleInteractionLogic scale x y c t rnd s).1.particles =
      s.particles ++ List.ofFn (fun i : Fin 2 => createParticle x y (rnd.particles i)) := by
  simp only [V716.handleInteractionLogic]
  repeat' split
  all_goals rfl

theorem V716.handle_some_recent {α : Type} [Inhabited α] (scale : List α)
    (x y : ℚ) (c : Canvas) (t : ℤ) (rnd : InteractRand) (s : InteractionState) :
    (V716.handleInteractionLogic scale x y c t rnd s).2.isSome = true →
      t - s.lastSoundTime > 100 := by
  simp only [V716.handleInteractionLogic]
  repeat' split
  all_goals simp_all

theorem V716.handle_some_last {α : Type} [Inhabited α] (scale : List α)
    (x y : ℚ) (c : Canvas) (t : ℤ) (rnd : InteractRand) (s : InteractionState) :
    (V716.handleInteractionLogic scale x y c t rnd s).2.isSome = true →
      (V716.handleInteractionLogic scale x y c t rnd s).1.lastSoundTime = t := by
  simp only [V716.handleInteractionLogic]
  repeat' split
  all_goals simp_all

/-- C1: generateScale n is the n-element equal-tempered chromatic
sequence from the base pitch: its length is n and for every cell index
i < n its i-th element is 130.81 * 2 ^ (i / 12). -/
theorem generateScale_equal_tempered (n i : ℕ) (h : i < n) :
    (generateScale n).length = n ∧
      (generateScale n).get? i = some ((130.81 : ℝ) * (2 : ℝ) ^ ((i : ℝ) / 12)) := by
  constructor
  · rw [generateScale, List.length_map, List.length_range]
  · rw [generateScale, List.get?_eq_getElem?, List.getElem?_map, List.getElem?_range h]
    rfl

/-- Witness for C1 at n = 3, i = 2. -/
theorem generateScale_equal_tempered_witness :
    (generateScale 3).length = 3 ∧
      (generateScale 3).get? 2 = some ((130.81 : ℝ) * (2 : ℝ) ^ (((2 : ℕ) : ℝ) / 12)) :=
  generateScale_equal_tempered 3 2 (by decide)

/-- C2: on a 1600x700 canvas the 7x16 variant computes cellSize
700 / 7 = 100; an interaction at (150, 150) maps to cell (1, 1), which
lies in the note region, resolves to note index 0 of the scale, and
(fresh rate-limit state) plays its frequency, the base pitch 130.81 Hz,
at volume 113/140. -/
theorem interaction_150_150_plays_base_pitch :
    V716.cellSizeOf ⟨1600, 700⟩ = 100 ∧
    V716.cellXOf 150 ⟨1600, 700⟩ = 1 ∧
    V716.cellYOf 150 ⟨1600, 700⟩ = 1 ∧
    (∀ rnd : InteractRand,
      (V716.handleInteractionLogic (generateScale V716.totalNotes) 150 150 ⟨1600, 700⟩
          1000 rnd initialState).2 =
        some (SoundEvent.note ((generateScale V716.totalNotes).getD 0 default) (113/140))) ∧
    (generateScale V716.totalNotes).getD 0 default = 130.81 := by
  have hcs : V716.cellSizeOf ⟨1600, 700⟩ = 100 := by
    rw [V716.cellSizeOf]; norm_num [V716.rows]
  have hx : V716.cellXOf 150 ⟨1600, 700⟩ = 1 := by
    rw [V716.cellXOf, hcs]; norm_num [Int.floor_eq_iff]
  have hy : V716.cellYOf 150 ⟨1600, 700⟩ = 1 := by
    rw [V716.cellYOf, hcs]; norm_num [Int.floor_eq_iff]
  have hvol : volumeAt 150 700 = 113/140 := by
    rw [volumeAt, max_eq_right] <;> norm_num
  refine ⟨hcs, hx, hy, ?_, ?_⟩
  · intro rnd
    simp only [V716.handleInteractionLogic, hx, hy, hvol, initialState]
    norm_num [V716.rows, V716.columns, V716.noteCols]
  · rw [show V716.totalNotes = 70 from rfl, generateScale, List.getD_eq_getElem?_getD,
      List.getElem?_map, List.getElem?_range (by norm_num : (0:ℕ) < 70)]
    norm_num [noteFrequency, baseFreq]

/-- C3: in both drum-column variants, an interaction whose cell falls in
a side drum column (column 0 or the last column) can never fire a note
tone, only a drum (or nothing); and the scenario: a click at (0, 150) on
a 1600x700 canvas, with column 0 the drum column and a fresh rate-limit
state, triggers the drum at volume 113/140, not a note. -/
theorem drum_column_never_note :
    (∀ {α : Type} (inst : Inhabited α) (scale : List α) (x y : ℚ) (c : Canvas)
      (t : ℤ) (rnd : InteractRand) (s : InteractionState) (f : α) (v : ℚ),
      (V716.cellXOf x c = 0 ∨ V716.cellXOf x c = (V716.columns : ℤ) - 1) →
        (V716.handleInteractionLogic scale x y c t rnd s).2 ≠
          some (SoundEvent.note f v)) ∧
    (∀ {α : Type} (inst : Inhabited α) (columns : ℕ) (scale : List α) (x y : ℚ)
      (c : Canvas) (t : ℤ) (rnd : InteractRand) (s : InteractionState) (f : α) (v : ℚ),
      (Orient.cellXOf x c = 0 ∨ Orient.cellXOf x c = (columns : ℤ) - 1) →
        (Orient.handleInteractionLogic columns scale x y c t rnd s).2 ≠
          some (SoundEvent.note f v)) ∧
    (∀ rnd : InteractRand,
      (V716.handleInteractionLogic (generateScale V716.totalNotes) 0 150 ⟨1600, 700⟩
          1000 rnd initialState).2 = some (SoundEvent.drum (113/140))) := by
  refine ⟨?_, ?_, ?_⟩
  · intro α inst scale x y c t rnd s f v hdrum
    simp only [V716.handleInteractionLogic]
    split
    · simp
    · split <;> simp
  · intro α inst columns scale x y c t rnd s f v hdrum
    simp only [Orient.handleInteractionLogic]
    split
    · simp
    · split <;> simp
  · intro rnd
    have hcs : V716.cellSizeOf ⟨1600, 700⟩ = 100 := by
      rw [V716.cellSizeOf]; norm_num [V716.rows]
    have hx : V716.cellXOf 0 ⟨1600, 700⟩ = 0 := by
      rw [V716.cellXOf, hcs]; norm_num
    have hy : V716.cellYOf 150 ⟨1600, 700⟩ = 1 := by
      rw [V716.cellYOf, hcs]; norm_num [Int.floor_eq_iff]
    have hvol : volumeAt 150 700 = 113/140 := by
      rw [volumeAt, max_eq_right] <;> norm_num
    simp only [V716.handleInteractionLogic, hx, hy, hvol, initialState]
    norm_num [V716.rows, V716.columns]

/-- Witness for C3: the drum-column theorem applied at the concrete
click (0, 150) of the scenario. -/
theorem drum_column_never_note_witness :
    (V716.handleInteractionLogic (α := ℕ) (List.range 70) 0 150 ⟨1600, 700⟩ 1000
        rand0 initialState).2 ≠ some (SoundEvent.note 7 (1/2)) :=
  drum_column_never_note.1 _ (List.range 70) 0 150 ⟨1600, 700⟩ 1000 rand0
    initialState 7 (1/2)
    (Or.inl (by rw [V716.cellXOf, V716.cellSizeOf]; norm_num))

/-- C10: the 100 ms gate suppresses only the sound: an interaction on a
valid note cell always records the cell highlight (opacity 1, scale 1.2,
stamped with the interaction time) and spawns 3 shapes and 2 particles;
when at most 100 ms elapsed since the last fired sound the tone is
suppressed while those visuals still appear. -/
theorem rate_limit_gates_only_sound {α : Type} [Inhabited α] (scale : List α)
    (x y : ℚ) (c : Canvas) (t : ℤ) (rnd : InteractRand) (s : InteractionState)
    (h1 : 1 ≤ V716.cellXOf x c) (h2 : V716.cellXOf x c ≤ 14)
    (h3 : 1 ≤ V716.cellYOf y c) (h4 : V716.cellYOf y c ≤ 5) :
    (V716.handleInteractionLogic scale x y c t rnd s).1.highlights
        (V716.cellYOf y c * (V716.columns : ℤ) + V716.cellXOf x c) =
      some ⟨1, 6/5, t⟩ ∧
    (V716.handleInteractionLogic scale x y c t rnd s).1.shapes.length =
      s.shapes.length + 3 ∧
    (V716.handleInteractionLogic scale x y c t rnd s).1.particles.length =
      s.particles.length + 2 ∧
    (t - s.lastSoundTime ≤ 100 →
      (V716.handleInteractionLogic scale x y c t rnd s).2 = none) := by
  have hny : ¬(V716.cellYOf y c = 0 ∨ V716.cellYOf y c = (V716.rows : ℤ) - 1) := by
    rw [V716.rows]; push_cast; omega
  have hnx : ¬(V716.cellXOf x c = 0 ∨ V716.cellXOf x c = (V716.columns : ℤ) - 1) := by
    rw [V716.columns]; push_cast; omega
  have hreg : 1 ≤ V716.cellXOf x c ∧ V716.cellXOf x c ≤ 14 ∧
      1 ≤ V716.cellYOf y c ∧ V716.cellYOf y c ≤ 5 := ⟨h1, h2, h3, h4⟩
  simp only [V716.handleInteractionLogic, if_neg hny, if_neg hnx, if_pos hreg]
  refine ⟨?_, ?_, ?_, ?_⟩
  · split <;> simp
  · split <;> simp
  · split <;> simp
  · intro hle
    rw [if_neg (by omega : ¬(t - s.lastSoundTime > 100))]

/-- Witness for C10 at the note cell (1, 1) reached from (150, 150) on a
1600x700 canvas, 50 ms after the last fired sound. -/
theorem rate_limit_gates_only_sound_witness :
    (V716.handleInteractionLogic (α := ℕ) (List.range 70) 150 150 ⟨1600, 700⟩ 50 rand0
        initialState).1.highlights
        (V716.cellYOf 150 ⟨1600, 700⟩ * (V716.columns : ℤ) + V716.cellXOf 150 ⟨1600, 700⟩) =
      some ⟨1, 6/5, 50⟩ ∧
    (V716.handleInteractionLogic (α := ℕ) (List.range 70) 150 150 ⟨1600, 700⟩ 50 rand0
        initialState).1.shapes.length = initialState.shapes.length + 3 ∧
    (V716.handleInteractionLogic (α := ℕ) (List.range 70) 150 150 ⟨1600, 700⟩ 50 rand0
        initialState).1.particles.length = initialState.particles.length + 2 ∧
    (50 - initialState.lastSoundTime ≤ 100 →
      (V716.handleInteractionLogic (α := ℕ) (List.range 70) 150 150 ⟨1600, 700⟩ 50 rand0
        initialState).2 = none) :=
  rate_limit_gates_only_sound (List.range 70) 150 150 ⟨1600, 700⟩ 50 rand0 initialState
    (by rw [V716.cellXOf, V716.cellSizeOf]; norm_num [V716.rows, Int.floor_eq_iff])
    (by rw [V716.cellXOf, V716.cellSizeOf]; norm_num [V716.rows, Int.floor_eq_iff])
    (by rw [V716.cellYOf, V716.cellSizeOf]; norm_num [V716.rows, Int.floor_eq_iff])
    (by rw [V716.cellYOf, V716.cellSizeOf]; norm_num [V716.rows, Int.floor_eq_iff])

/-- C4 (amended): the audio gate is process-wide: a tone or drum fires
only when more than 100 ms elapsed since the last fired sound, and two
interactions less than 100 ms apart produce at most one sound, never
two (and possibly none, when a sound fired shortly before the pair). -/
theorem rate_limit_at_most_one :
    (∀ {α : Type} (inst : Inhabited α) (scale : List α) (x y : ℚ) (c : Canvas)
      (t : ℤ) (rnd : InteractRand) (s : InteractionState),
      (V716.handleInteractionLogic scale x y c t rnd s).2.isSome = true →
        t - s.lastSoundTime > 100) ∧
    (∀ {α : Type} (inst : Inhabited α) (scale : List α) (x1 y1 x2 y2 : ℚ)
      (c : Canvas) (t1 t2 : ℤ) (r1 r2 : InteractRand) (s : InteractionState),
      t2 - t1 < 100 →
        ¬((V716.handleInteractionLogic scale x1 y1 c t1 r1 s).2.isSome = true ∧
          (V716.handleInteractionLogic scale x2 y2 c t2 r2
            (V716.handleInteractionLogic scale x1 y1 c t1 r1 s).1).2.isSome = true)) := by
  constructor
  · intro α inst scale x y c t rnd s h
    exact V716.handle_some_recent scale x y c t rnd s h
  · rintro α inst scale x1 y1 x2 y2 c t1 t2 r1 r2 s hlt ⟨h1, h2⟩
    have e1 := V716.handle_some_last scale x1 y1 c t1 r1 s h1
    have e2 := V716.handle_some_recent scale x2 y2 c t2 r2 _ h2
    rw [e1] at e2
    omega

/-- Witness for C4: two note-cell interactions 30 ms apart never both
fire. -/
theorem rate_limit_at_most_one_witness :
    ¬((V716.handleInteractionLogic (α := ℕ) (List.range 70) 150 150 ⟨1600, 700⟩ 1050
        rand0 recentSoundState).2.isSome = true ∧
      (V716.handleInteractionLogic (α := ℕ) (List.range 70) 150 150 ⟨1600, 700⟩ 1080
        rand0 (V716.handleInteractionLogic (α := ℕ) (List.range 70) 150 150 ⟨1600, 700⟩
          1050 rand0 recentSoundState).1).2.isSome = true) :=
  rate_limit_at_most_one.2 _ (List.range 70) 150 150 150 150 ⟨1600, 700⟩ 1050 1080
    rand0 rand0 recentSoundState (by norm_num)

/-- Counterexample for C4 as stated: after a sound fired at time 1000,
two sound-eligible note-cell interactions at times 1050 and 1080 (30 ms
apart, both at (150, 150) on a 1600x700 canvas) produce zero audible
tones, not exactly one; the same interaction is sound-eligible, since
run at time 1200 it does fire. -/
theorem rate_limit_exactly_one_false :
    (V716.handleInteractionLogic (α := ℕ) (List.range 70) 150 150 ⟨1600, 700⟩ 1050
        rand0 recentSoundState).2 = none ∧
    (V716.handleInteractionLogic (α := ℕ) (List.range 70) 150 150 ⟨1600, 700⟩ 1080
        rand0 (V716.handleInteractionLogic (α := ℕ) (List.range 70) 150 150 ⟨1600, 700⟩
          1050 rand0 recentSoundState).1).2 = none ∧
    (V716.handleInteractionLogic (α := ℕ) (List.range 70) 150 150 ⟨1600, 700⟩ 1200
        rand0 recentSoundState).2.isSome = true := by
  have hcs : V716.cellSizeOf ⟨1600, 700⟩ = 100 := by
    rw [V716.cellSizeOf]; norm_num [V716.rows]
  have hx : V716.cellXOf 150 ⟨1600, 700⟩ = 1 := by
    rw [V716.cellXOf, hcs]; norm_num [Int.floor_eq_iff]
  have hy : V716.cellYOf 150 ⟨1600, 700⟩ = 1 := by
    rw [V716.cellYOf, hcs]; norm_num [Int.floor_eq_iff]
  refine ⟨?_, ?_, ?_⟩
  · simp only [V716.handleInteractionLogic, hx, hy, recentSoundState]
    norm_num [V716.rows, V716.columns]
  · simp only [V716.handleInteractionLogic, hx, hy, recentSoundState]
    norm_num [V716.rows, V716.columns]
  · simp only [V716.handleInteractionLogic, hx, hy, recentSoundState]
    norm_num [V716.rows, V716.columns]

theorem trimPool_length_le {β : Type} (l : List β) (m : ℕ) :
    (trimPool l m).length ≤ m := by
  rw [trimPool]
  split
  · rw [List.length_drop]
    omega
  · omega

theorem trimPool_suffix {β : Type} (l : List β) (m : ℕ) : (trimPool l m).IsSuffix l := by
  rw [trimPool]
  split
  · exact List.drop_suffix _ _
  · exact List.suffix_refl l

theorem spawnIter_shapes_length (n : ℕ) (s : InteractionState) :
    (spawnIter n s).shapes.length = s.shapes.length + 3 * n := by
  induction n with
  | zero => rw [spawnIter]; omega
  | succ k ih =>
      rw [spawnIter, V716.handle_shapes, List.length_append, List.length_ofFn, ih]
      omega

/-- C5 (amended): after the animate frame runs (ageing, retiring, then
trimming), the shape pool holds at most MAX_SHAPES entries and the
particle pool at most MAX_PARTICLES, and the trim keeps a suffix of the
surviving pool, i.e. the newest entries, discarding the oldest; a spawn
event itself does not trim, so between frames the pools can transiently
exceed the caps. -/
theorem pool_caps_after_frame (shapes : List Shape) (particles : List Particle) :
    (animatePools shapes particles).1.length ≤ MAX_SHAPES ∧
    (animatePools shapes particles).2.length ≤ MAX_PARTICLES ∧
    (animatePools shapes particles).1.IsSuffix
      ((shapes.map stepShape).filter (fun sh => decide (0 < sh.life))) ∧
    (animatePools shapes particles).2.IsSuffix
      ((particles.map stepParticle).filter (fun p => decide (0 < p.life))) := by
  refine ⟨?_, ?_, ?_, ?_⟩
  · exact trimPool_length_le _ _
  · exact trimPool_length_le _ _
  · exact trimPool_suffix _ _
  · exact trimPool_suffix _ _

/-- Counterexample for C5 as stated: 34 spawn events with no intervening
animate frame grow the shape pool to 102 entries, exceeding
MAX_SHAPES = 100. -/
theorem pool_cap_after_spawns_false :
    (spawnIter 34 initialState).shapes.length = 102 ∧
    ¬((spawnIter 34 initialState).shapes.length ≤ MAX_SHAPES) := by
  have h : (spawnIter 34 initialState).shapes.length = 102 := by
    rw [spawnIter_shapes_length]
    rfl
  exact ⟨h, by rw [h, MAX_SHAPES]; omega⟩

theorem updateHighlight_alpha_active (t now : ℤ) (h1 : now ≤ t + 500) :
    (updateHighlight now ⟨1, 6/5, t⟩).alpha = 1 - ((now - t : ℤ) : ℚ) / 500 := by
  simp only [updateHighlight, highlightDuration]
  rw [if_neg (show ¬((1 : ℚ) ≤ 0) by norm_num)]
  rw [if_neg (show ¬(((now - t : ℤ) : ℚ) / 500 > 1) from by
    rw [not_lt, div_le_one (by norm_num)]
    exact_mod_cast (by omega : (now - t : ℤ) ≤ 500))]

/-- C6: highlight decay: a highlight triggered at time t has opacity 1
at elapsed 0, opacity 0 at elapsed = duration (500 ms), its opacity is
monotonically non-increasing over [0, duration], its opacity is reset to
0 once the elapsed time exceeds the duration, and a highlight whose
opacity reached 0 is inert (later frames leave it unchanged). -/
theorem highlight_decay :
    (∀ t : ℤ, (updateHighlight t ⟨1, 6/5, t⟩).alpha = 1) ∧
    (∀ t : ℤ, (updateHighlight (t + 500) ⟨1, 6/5, t⟩).alpha = 0) ∧
    (∀ t n1 n2 : ℤ, t ≤ n1 → n1 ≤ n2 → n2 ≤ t + 500 →
      (updateHighlight n2 ⟨1, 6/5, t⟩).alpha ≤ (updateHighlight n1 ⟨1, 6/5, t⟩).alpha) ∧
    (∀ t now : ℤ, t + 500 < now → (updateHighlight now ⟨1, 6/5, t⟩).alpha = 0) ∧
    (∀ now : ℤ, ∀ ch : CellHighlight, ch.alpha ≤ 0 → updateHighlight now ch = ch) := by
  refine ⟨?_, ?_, ?_, ?_, ?_⟩
  · intro t
    rw [updateHighlight_alpha_active t t (by omega)]
    norm_num
  · intro t
    rw [updateHighlight_alpha_active t (t + 500) (by omega)]
    norm_num
  · intro t n1 n2 h1 h2 h3
    rw [updateHighlight_alpha_active t n1 (by omega),
      updateHighlight_alpha_active t n2 (by omega)]
    have hc : ((n1 - t : ℤ) : ℚ) ≤ ((n2 - t : ℤ) : ℚ) :=
      Int.cast_le.mpr (by omega)
    linarith
  · intro t now h
    simp only [updateHighlight, highlightDuration]
    rw [if_neg (show ¬((1 : ℚ) ≤ 0) by norm_num)]
    rw [if_pos (show ((now - t : ℤ) : ℚ) / 500 > 1 from by
      rw [gt_iff_lt, lt_div_iff (by norm_num)]
      exact_mod_cast (by omega : (1 : ℤ) * 500 < now - t))]
  · intro now ch h
    rw [updateHighlight, if_pos h]

/-- Witness for C6: decay between elapsed 100 and 200 ms, reset past the
duration, and inertness, at concrete times. -/
theorem highlight_decay_witness :
    (updateHighlight 200 ⟨1, 6/5, 0⟩).alpha ≤ (updateHighlight 100 ⟨1, 6/5, 0⟩).alpha ∧
    (updateHighlight 600 ⟨1, 6/5, 0⟩).alpha = 0 ∧
    updateHighlight 999 ⟨0, 1, 0⟩ = ⟨0, 1, 0⟩ :=
  ⟨highlight_decay.2.2.1 0 100 200 (by norm_num) (by norm_num) (by norm_num),
   highlight_decay.2.2.2.1 0 600 (by norm_num),
   highlight_decay.2.2.2.2 999 ⟨0, 1, 0⟩ (le_refl 0)⟩

/-- C7 (amended): an interaction whose cell falls outside
[0, columnCount) x [0, rowCount) plays no sound, records no highlight
and leaves lastSoundTime untouched, but it still spawns 3 shapes and 2
particles, so the pools do change. -/
theorem out_of_bounds_no_sound_no_highlight (x y : ℚ) (c : Canvas) (t : ℤ)
    (rnd : InteractRand) (s : InteractionState)
    (h : ¬(0 ≤ Page5.cellXOf x c ∧ Page5.cellXOf x c < Page5.columnsOf c ∧
      0 ≤ Page5.cellYOf y c ∧ Page5.cellYOf y c < (Page5.rows : ℤ))) :
    (Page5.handleInteractionLogic x y c t rnd s).2 = none ∧
    (Page5.handleInteractionLogic x y c t rnd s).1.highlights = s.highlights ∧
    (Page5.handleInteractionLogic x y c t rnd s).1.lastSoundTime = s.lastSoundTime ∧
    (Page5.handleInteractionLogic x y c t rnd s).1.shapes.length =
      s.shapes.length + 3 ∧
    (Page5.handleInteractionLogic x y c t rnd s).1.particles.length =
      s.particles.length + 2 := by
  simp only [Page5.handleInteractionLogic, if_neg h]
  refine ⟨trivial, trivial, trivial, ?_, ?_⟩ <;> simp

/-- Witness for C7 (amended) at the out-of-bounds click (-100, 150) on a
1600x800 canvas. -/
theorem out_of_bounds_no_sound_no_highlight_witness :
    (Page5.handleInteractionLogic (-100) 150 ⟨1600, 800⟩ 1000 rand0 initialState).2 = none ∧
    (Page5.handleInteractionLogic (-100) 150 ⟨1600, 800⟩ 1000 rand0
      initialState).1.highlights = initialState.highlights ∧
    (Page5.handleInteractionLogic (-100) 150 ⟨1600, 800⟩ 1000 rand0
      initialState).1.lastSoundTime = initialState.lastSoundTime ∧
    (Page5.handleInteractionLogic (-100) 150 ⟨1600, 800⟩ 1000 rand0
      initialState).1.shapes.length = initialState.shapes.length + 3 ∧
    (Page5.handleInteractionLogic (-100) 150 ⟨1600, 800⟩ 1000 rand0
      initialState).1.particles.length = initialState.particles.length + 2 :=
  out_of_bounds_no_sound_no_highlight (-100) 150 ⟨1600, 800⟩ 1000 rand0 initialState
    (by
      rw [Page5.cellXOf, Page5.cellSizeOf]
      intro hcon
      have := hcon.1
      rw [show ((-100 : ℚ) / ((800 : ℚ) / ((Page5.rows : ℕ) : ℚ))) = -1 by
        norm_num [Page5.rows]] at this
      norm_num at this)

/-- Counterexample for C7 as stated: the out-of-bounds interaction at
(-100, 150) on a 1600x800 canvas plays no sound and records no
highlight, yet grows the shape pool from 0 to 3 entries and the particle
pool from 0 to 2 - the pools are not unchanged. -/
theorem out_of_bounds_pools_change :
    (Page5.handleInteractionLogic (-100) 150 ⟨1600, 800⟩ 1000 rand0 initialState).2 = none ∧
    (Page5.handleInteractionLogic (-100) 150 ⟨1600, 800⟩ 1000 rand0
      initialState).1.shapes.length = 3 ∧
    initialState.shapes.length = 0 ∧
    (Page5.handleInteractionLogic (-100) 150 ⟨1600, 800⟩ 1000 rand0
      initialState).1.particles.length = 2 ∧
    initialState.particles.length = 0 := by
  have hx : Page5.cellXOf (-100) ⟨1600, 800⟩ = -1 := by
    rw [Page5.cellXOf, Page5.cellSizeOf]
    norm_num [Page5.rows, Int.floor_eq_iff]
  have hb : ¬(0 ≤ Page5.cellXOf (-100) ⟨1600, 800⟩ ∧
      Page5.cellXOf (-100) ⟨1600, 800⟩ < Page5.columnsOf ⟨1600, 800⟩ ∧
      0 ≤ Page5.cellYOf 150 ⟨1600, 800⟩ ∧
      Page5.cellYOf 150 ⟨1600, 800⟩ < (Page5.rows : ℤ)) := by
    rw [hx]
    intro hcon
    omega
  simp only [Page5.handleInteractionLogic, if_neg hb]
  refine ⟨trivial, ?_, by simp [initialState], ?_, by simp [initialState]⟩ <;>
    simp [initialState]

/-- C8 (amended): playSound fails silently - it logs a warning and
no-ops - when the page is not in a secure context or AudioContext is
unsupported, and never throws (its body is wrapped in try/catch);
playDrum fails silently only when AudioContext is unsupported: it
performs no secure-context check, and in a supported but insecure
environment it proceeds to play the drum. -/
theorem audio_failure_silent :
    (∀ (env : Audio.AudioEnv) (f v : ℚ),
      env.isSecureContext = false ∨ env.audioSupported = false →
        Audio.playSound env f v = Audio.AudioAction.warnedSkip) ∧
    (∀ (env : Audio.AudioEnv) (v : ℚ),
      env.audioSupported = false →
        Audio.playDrum (α := ℚ) env v = Audio.AudioAction.warnedSkip) ∧
    (∀ v : ℚ,
      Audio.playDrum (α := ℚ) ⟨false, true⟩ v = Audio.AudioAction.playedDrum v) := by
  refine ⟨?_, ?_, ?_⟩
  · rintro env f v (h | h)
    · simp [Audio.playSound, h]
    · rw [Audio.playSound]
      split
      · rfl
      · rfl
  · intro env v h
    rw [Audio.playDrum, if_pos h]
  · intro v
    rw [Audio.playDrum]
    rfl

/-- Witness for C8 (amended): both players no-op with unsupported audio,
and playSound no-ops in an insecure context. -/
theorem audio_failure_silent_witness :
    Audio.playSound ⟨true, false⟩ (440 : ℚ) (1/2) = Audio.AudioAction.warnedSkip ∧
    Audio.playSound ⟨false, true⟩ (440 : ℚ) (1/2) = Audio.AudioAction.warnedSkip ∧
    Audio.playDrum (α := ℚ) ⟨true, false⟩ (1/2) = Audio.AudioAction.warnedSkip :=
  ⟨audio_failure_silent.1 ⟨true, false⟩ 440 (1/2) (Or.inr rfl),
   audio_failure_silent.1 ⟨false, true⟩ 440 (1/2) (Or.inl rfl),
   audio_failure_silent.2.1 ⟨true, false⟩ (1/2) rfl⟩

/-- Counterexample for C8 as stated: in an insecure context with a
supported AudioContext, playDrum does not fail silently and no-op: it
goes ahead and plays the drum, because only playSound has the
secure-context guard. -/
theorem playDrum_ignores_secure_context :
    Audio.playDrum (α := ℚ) ⟨false, true⟩ (1/2) = Audio.AudioAction.playedDrum (1/2) ∧
    ¬(Audio.playDrum (α := ℚ) ⟨false, true⟩ (1/2) = Audio.AudioAction.warnedSkip) := by
  constructor
  · rw [Audio.playDrum]
    rfl
  · rw [Audio.playDrum]
    simp

/-- C9: the scale length always equals the configured note-cell count:
it does initially (0 = 0) and after every updateLayoutAndScale; a resize
from landscape (16 columns, 5 x 14 = 70 notes) to portrait (9 columns,
5 x 7 = 35 notes) regenerates the scale to the new note-cell count,
which subsequent interactions then read. -/
theorem scale_length_matches_layout :
    Orient.initLayout.scale.length = Orient.initLayout.totalNotes ∧
    (∀ p : Bool, (Orient.updateLayoutAndScale p).scale.length =
      (Orient.updateLayoutAndScale p).totalNotes) ∧
    (Orient.updateLayoutAndScale false).scale.length = 70 ∧
    (Orient.updateLayoutAndScale true).scale.length = 35 ∧
    (Orient.getLayoutParams false).totalNotes = 70 ∧
    (Orient.getLayoutParams true).totalNotes = 35 := by
  refine ⟨rfl, ?_, ?_, ?_, rfl, rfl⟩
  · intro p
    simp [Orient.updateLayoutAndScale, generateScale]
  · simp [Orient.updateLayoutAndScale, Orient.getLayoutParams, generateScale]
  · simp [Orient.updateLayoutAndScale, Orient.getLayoutParams, generateScale]
